import Mathlib

/-!
Verification of the liaotian repository: a shallow embedding of its
database schema (src/supabase/migrations/database_structure.sql), the
row-level-security (RLS) policy predicates declared there, the storage
bucket policies, the foreign-key ON DELETE behaviour, and the client-side
username-change workflow (src/src/components/Settings.tsx).

Identities (auth.uid()) and uuid columns are modelled as strings; tables
are lists of rows.  Each CREATE POLICY statement's USING / WITH CHECK
expression is translated into a Boolean predicate over the acting
identity, the database state and the candidate row.  RLS with only
permissive policies grants an operation on a row iff some policy of that
(table, operation) pair evaluates to true; a (table, operation) pair with
no policy denies every row.
-/

namespace Liaotian

/-- An auth identity (auth.uid()), as its uuid text. -/
abbrev Uid := String

/-- Row of the profiles table. -/
structure Profile where
  id : Uid
  username : String
  display_name : String
  bio : String
  avatar_url : String
  banner_url : String
  verified : Bool
  created_at : Nat
  theme : String
  verification_request : String
  last_seen : Option Nat
deriving DecidableEq

/-- Row of the posts table. -/
structure Post where
  id : String
  user_id : Uid
  content : String
  media_url : String
  media_type : String
  created_at : Nat
deriving DecidableEq

/-- Row of the follows table. -/
structure Follow where
  follower_id : Uid
  following_id : Uid
  created_at : Nat
deriving DecidableEq

/-- Row of the messages table.  `group_id` is nullable (direct message
when null, group message when set); `reply_to_id` is nullable. -/
structure Message where
  id : String
  sender_id : Uid
  recipient_id : Uid
  content : String
  media_url : String
  media_type : String
  read : Bool
  created_at : Nat
  reply_to_id : Option String
  group_id : Option String
deriving DecidableEq

/-- Row of the groups table; `creator_id` is nullable (ON DELETE SET NULL). -/
structure Group where
  id : String
  name : String
  creator_id : Option Uid
  created_at : Nat
  avatar_url : String
  banner_url : String
deriving DecidableEq

/-- Row of the group_members table. -/
structure GroupMember where
  group_id : String
  user_id : Uid
  joined_at : Nat
  is_admin : Bool
deriving DecidableEq

/-- The database state: one list of rows per table of the schema. -/
structure DB where
  profiles : List Profile
  posts : List Post
  follows : List Follow
  messages : List Message
  groups : List Group
  group_members : List GroupMember
deriving DecidableEq

/-- The SQL operations RLS distinguishes. -/
inductive SqlOp where
  | select
  | insert
  | update
  | delete
deriving DecidableEq

/-- USING of policy "Users can view DMs" on messages:
`(auth.uid() = sender_id OR auth.uid() = recipient_id) AND group_id IS NULL`. -/
def dmSelectUsing (caller : Uid) (m : Message) : Bool :=
  (caller == m.sender_id || caller == m.recipient_id) && m.group_id.isNone

/-- USING of policy "Users can view group messages" on messages:
`group_id IS NOT NULL AND EXISTS (SELECT 1 FROM group_members WHERE
group_id = messages.group_id AND user_id = auth.uid())`. -/
def groupMsgSelectUsing (caller : Uid) (db : DB) (m : Message) : Bool :=
  m.group_id.isSome &&
    db.group_members.any (fun gm => some gm.group_id == m.group_id && gm.user_id == caller)

/-- WITH CHECK of policy "Users can send DMs" on messages:
`auth.uid() = sender_id AND group_id IS NULL`. -/
def dmInsertCheck (caller : Uid) (m : Message) : Bool :=
  caller == m.sender_id && m.group_id.isNone

/-- WITH CHECK of policy "Users can send group messages" on messages:
`group_id IS NOT NULL AND auth.uid() = sender_id AND EXISTS (...)`. -/
def groupMsgInsertCheck (caller : Uid) (db : DB) (m : Message) : Bool :=
  m.group_id.isSome && caller == m.sender_id &&
    db.group_members.any (fun gm => some gm.group_id == m.group_id && gm.user_id == caller)

/-- USING of policy "Users can mark DMs as read" on messages:
`(auth.uid() = recipient_id) AND group_id IS NULL`. -/
def dmUpdateUsing (caller : Uid) (m : Message) : Bool :=
  caller == m.recipient_id && m.group_id.isNone

/-- All policies declared on the messages table, per operation.  The
migration declares two SELECT policies, two INSERT policies, one UPDATE
policy and no DELETE policy. -/
def messagesPolicies : SqlOp → List (Uid → DB → Message → Bool)
  | .select => [fun c _ m => dmSelectUsing c m, groupMsgSelectUsing]
  | .insert => [fun c _ m => dmInsertCheck c m, groupMsgInsertCheck]
  | .update => [fun c _ m => dmUpdateUsing c m]
  | .delete => []

/-- RLS verdict for an operation on a messages row: permissive policies
are OR-combined, and no applicable policy means denial. -/
def messagesAllowed (op : SqlOp) (caller : Uid) (db : DB) (m : Message) : Bool :=
  (messagesPolicies op).any (fun p => p caller db m)

/-- USING of policy "Members viewable by self" on group_members:
`group_members.user_id = auth.uid()`. -/
def groupMembersSelectUsing (caller : Uid) (gm : GroupMember) : Bool :=
  gm.user_id == caller

/-- Subquery `EXISTS (SELECT 1 FROM groups WHERE id = <gid> AND creator_id = auth.uid())`. -/
def isGroupCreator (caller : Uid) (db : DB) (gid : String) : Bool :=
  db.groups.any (fun g => g.id == gid && g.creator_id == some caller)

/-- Subquery `EXISTS (SELECT 1 FROM group_members gm WHERE gm.group_id = <gid>
AND gm.user_id = auth.uid() AND gm.is_admin = true)`. -/
def isAdminMember (caller : Uid) (db : DB) (gid : String) : Bool :=
  db.group_members.any (fun gm => gm.group_id == gid && gm.user_id == caller && gm.is_admin)

/-- USING of policy "Admins and creators can update member roles" on
group_members: `(EXISTS (creator) OR EXISTS (admin)) AND auth.uid() <> user_id`. -/
def groupMembersUpdateUsing (caller : Uid) (db : DB) (gm : GroupMember) : Bool :=
  (isGroupCreator caller db gm.group_id || isAdminMember caller db gm.group_id) &&
    caller != gm.user_id

/-- WITH CHECK of policy "Admins and creators can insert members". -/
def groupMembersInsertCheck (caller : Uid) (db : DB) (gm : GroupMember) : Bool :=
  isGroupCreator caller db gm.group_id || isAdminMember caller db gm.group_id

/-- USING of policy "Admins, creators, and member can delete members". -/
def groupMembersDeleteUsing (caller : Uid) (db : DB) (gm : GroupMember) : Bool :=
  caller == gm.user_id || isGroupCreator caller db gm.group_id ||
    isAdminMember caller db gm.group_id

/-- The rows an authenticated caller's SELECT on group_members returns:
the table filtered by the single SELECT policy "Members viewable by self". -/
def selectGroupMembers (caller : Uid) (db : DB) : List GroupMember :=
  db.group_members.filter (fun gm => groupMembersSelectUsing caller gm)

/-- Claim C1: a messages row with a non-null group_id is returned by
SELECT iff a group_members row with that group_id and the caller's
user_id exists; the caller being the sender neither grants nor denies. -/
theorem group_message_select_iff_membership
    (caller : Uid) (db : DB) (m : Message) (g : String)
    (hg : m.group_id = some g) :
    messagesAllowed .select caller db m = true ↔
      ∃ gm ∈ db.group_members, gm.group_id = g ∧ gm.user_id = caller := by
  simp [messagesAllowed, messagesPolicies, dmSelectUsing, groupMsgSelectUsing, hg]

/-- Witness for C1 at a concrete database. -/
theorem group_message_select_iff_membership_witness :
    messagesAllowed .select "u1"
      { profiles := [], posts := [], follows := [], messages := [],
        groups := [], group_members := [⟨"g1", "u1", 0, false⟩] }
      { id := "m1", sender_id := "u2", recipient_id := "u3", content := "hi",
        media_url := "", media_type := "image", read := false, created_at := 0,
        reply_to_id := none, group_id := some "g1" } = true ↔
      ∃ gm ∈ [(⟨"g1", "u1", 0, false⟩ : GroupMember)],
        gm.group_id = "g1" ∧ gm.user_id = "u1" :=
  group_message_select_iff_membership "u1" _ _ "g1" rfl

/-- Claim C2: a messages row with null group_id is returned by SELECT iff
the caller is the sender or the recipient; and on every row the DM branch
and the group branch are mutually exclusive. -/
theorem dm_select_iff_party_and_branches_exclusive
    (caller : Uid) (db : DB) (m mAny : Message)
    (hg : m.group_id = none) :
    (messagesAllowed .select caller db m = true ↔
      caller = m.sender_id ∨ caller = m.recipient_id) ∧
    ¬(dmSelectUsing caller mAny = true ∧ groupMsgSelectUsing caller db mAny = true) := by
  constructor
  · simp [messagesAllowed, messagesPolicies, dmSelectUsing, groupMsgSelectUsing, hg]
  · rintro ⟨hdm, hgrp⟩
    simp only [dmSelectUsing, Bool.and_eq_true, Option.isNone_iff_eq_none] at hdm
    simp only [groupMsgSelectUsing, Bool.and_eq_true, Option.isSome_iff_exists] at hgrp
    obtain ⟨⟨a, ha⟩, -⟩ := hgrp
    rw [hdm.2] at ha
    exact Option.noConfusion ha

/-- Witness for C2 at a concrete database. -/
theorem dm_select_iff_party_and_branches_exclusive_witness :
    (messagesAllowed .select "u1"
      { profiles := [], posts := [], follows := [], messages := [],
        groups := [], group_members := [] }
      { id := "m1", sender_id := "u1", recipient_id := "u2", content := "hi",
        media_url := "", media_type := "image", read := false, created_at := 0,
        reply_to_id := none, group_id := none } = true ↔
      "u1" = "u1" ∨ "u1" = "u2") ∧
    ¬(dmSelectUsing "u1"
        { id := "m1", sender_id := "u1", recipient_id := "u2", content := "hi",
          media_url := "", media_type := "image", read := false, created_at := 0,
          reply_to_id := none, group_id := none } = true ∧
      groupMsgSelectUsing "u1"
        { profiles := [], posts := [], follows := [], messages := [],
          groups := [], group_members := [] }
        { id := "m1", sender_id := "u1", recipient_id := "u2", content := "hi",
          media_url := "", media_type := "image", read := false, created_at := 0,
          reply_to_id := none, group_id := none } = true) :=
  dm_select_iff_party_and_branches_exclusive "u1" _ _ _ rfl

/-- Claim C3: a SELECT on group_members returns exactly the rows whose
user_id is the caller's, never another identity's rows (creator or admin
status is irrelevant); and the result depends on no table other than
group_members (the predicate performs no join). -/
theorem group_members_select_self_only
    (caller : Uid) (db db2 : DB) (gm : GroupMember)
    (hsame : db.group_members = db2.group_members) :
    (gm ∈ selectGroupMembers caller db ↔ gm ∈ db.group_members ∧ gm.user_id = caller) ∧
    selectGroupMembers caller db = selectGroupMembers caller db2 := by
  constructor
  · simp [selectGroupMembers, groupMembersSelectUsing, List.mem_filter]
  · simp [selectGroupMembers, hsame]

/-- Witness for C3 at a concrete database. -/
theorem group_members_select_self_only_witness :
    ((⟨"g1", "u2", 0, true⟩ : GroupMember) ∈ selectGroupMembers "u1"
        { profiles := [], posts := [], follows := [], messages := [],
          groups := [], group_members := [⟨"g1", "u1", 0, false⟩, ⟨"g1", "u2", 0, true⟩] } ↔
      (⟨"g1", "u2", 0, true⟩ : GroupMember) ∈
          [(⟨"g1", "u1", 0, false⟩ : GroupMember), ⟨"g1", "u2", 0, true⟩] ∧
        "u2" = "u1") ∧
    selectGroupMembers "u1"
        { profiles := [], posts := [], follows := [], messages := [],
          groups := [], group_members := [⟨"g1", "u1", 0, false⟩, ⟨"g1", "u2", 0, true⟩] } =
      selectGroupMembers "u1"
        { profiles := [], posts := [], follows := [], messages := [],
          groups := [⟨"g1", "grp", some "u1", 0, "", ""⟩],
          group_members := [⟨"g1", "u1", 0, false⟩, ⟨"g1", "u2", 0, true⟩] } :=
  group_members_select_self_only "u1" _ _ _ rfl

/-- Claim C4: an UPDATE of a group_members row passes the USING clause iff
the caller differs from the row's user_id and is the group's creator or an
admin member; in particular a caller can never update their own row. -/
theorem group_members_update_no_self
    (caller : Uid) (db : DB) (gm : GroupMember) :
    groupMembersUpdateUsing caller db gm = true ↔
      caller ≠ gm.user_id ∧
        (isGroupCreator caller db gm.group_id = true ∨
          isAdminMember caller db gm.group_id = true) := by
  simp [groupMembersUpdateUsing, and_comm]

/-- Claim C9: messages are immutable for clients beyond the DM read flag:
no caller passes the UPDATE policy on a row with non-null group_id, and
DELETE (no policy declared, RLS enabled) is denied on every row. -/
theorem messages_no_group_update_no_delete
    (caller : Uid) (db : DB) (m mAny : Message) (g : String)
    (hg : m.group_id = some g) :
    messagesAllowed .update caller db m = false ∧
    messagesAllowed .delete caller db mAny = false := by
  constructor
  · simp [messagesAllowed, messagesPolicies, dmUpdateUsing, hg]
  · simp [messagesAllowed, messagesPolicies]

/-- Witness for C9 at a concrete message. -/
theorem messages_no_group_update_no_delete_witness :
    messagesAllowed .update "u2"
        { profiles := [], posts := [], follows := [], messages := [],
          groups := [], group_members := [⟨"g1", "u2", 0, false⟩] }
        { id := "m1", sender_id := "u1", recipient_id := "u2", content := "hi",
          media_url := "", media_type := "image", read := false, created_at := 0,
          reply_to_id := none, group_id := some "g1" } = false ∧
    messagesAllowed .delete "u2"
        { profiles := [], posts := [], follows := [], messages := [],
          groups := [], group_members := [⟨"g1", "u2", 0, false⟩] }
        { id := "m2", sender_id := "u2", recipient_id := "u2", content := "hi",
          media_url := "", media_type := "image", read := false, created_at := 0,
          reply_to_id := none, group_id := none } = false :=
  messages_no_group_update_no_delete "u2" _ _ _ "g1" rfl

/-- ON DELETE SET NULL of groups.creator_id: a group whose creator is the
deleted profile keeps its row with creator_id nulled. -/
def nullifyCreator (pid : Uid) (g : Group) : Group :=
  if g.creator_id == some pid then { g with creator_id := none } else g

/-- The ids of the messages rows removed by deleting profile `pid`
(messages.sender_id and messages.recipient_id are both ON DELETE CASCADE). -/
def deletedMessageIds (db : DB) (pid : Uid) : List String :=
  (db.messages.filter (fun m => m.sender_id == pid || m.recipient_id == pid)).map
    (fun m => m.id)

/-- ON DELETE SET NULL of messages.reply_to_id: a surviving message whose
reply target was removed gets reply_to_id nulled. -/
def clearDanglingReply (removed : List String) (m : Message) : Message :=
  match m.reply_to_id with
  | some r => if removed.contains r then { m with reply_to_id := none } else m
  | none => m

/-- Deleting a profiles row, with every ON DELETE clause of the schema
applied: CASCADE on posts.user_id, follows.follower_id,
follows.following_id, messages.sender_id, messages.recipient_id and
group_members.user_id; SET NULL on groups.creator_id and on the
reply_to_id of messages replying to a removed message. -/
def deleteProfile (db : DB) (pid : Uid) : DB :=
  { profiles := db.profiles.filter (fun p => p.id != pid)
    posts := db.posts.filter (fun p => p.user_id != pid)
    follows := db.follows.filter (fun f => f.follower_id != pid && f.following_id != pid)
    messages := (db.messages.filter (fun m => m.sender_id != pid && m.recipient_id != pid)).map
      (clearDanglingReply (deletedMessageIds db pid))
    groups := db.groups.map (nullifyCreator pid)
    group_members := db.group_members.filter (fun gm => gm.user_id != pid) }

/-- Claim C7: deleting a profile removes its posts, its follows in both
directions, its sent or received messages and its group memberships, while
every group it created survives with creator_id set to null. -/
theorem delete_profile_cascades
    (db : DB) (pid : Uid) (p : Post) (f : Follow) (gm : GroupMember)
    (m dm : Message) (g : Group)
    (hm : m ∈ (deleteProfile db pid).messages)
    (hdm : dm ∈ db.messages) (hdms : dm.sender_id ≠ pid) (hdmr : dm.recipient_id ≠ pid)
    (hg : g ∈ db.groups) (hgc : g.creator_id = some pid) :
    (p ∈ (deleteProfile db pid).posts ↔ p ∈ db.posts ∧ p.user_id ≠ pid) ∧
    (f ∈ (deleteProfile db pid).follows ↔
      f ∈ db.follows ∧ f.follower_id ≠ pid ∧ f.following_id ≠ pid) ∧
    (gm ∈ (deleteProfile db pid).group_members ↔
      gm ∈ db.group_members ∧ gm.user_id ≠ pid) ∧
    (m.sender_id ≠ pid ∧ m.recipient_id ≠ pid) ∧
    clearDanglingReply (deletedMessageIds db pid) dm ∈ (deleteProfile db pid).messages ∧
    { g with creator_id := none } ∈ (deleteProfile db pid).groups ∧
    (deleteProfile db pid).groups.length = db.groups.length := by
  refine ⟨?_, ?_, ?_, ?_, ?_, ?_, ?_⟩
  · simp [deleteProfile, List.mem_filter]
  · simp [deleteProfile, List.mem_filter]
  · simp [deleteProfile, List.mem_filter]
  · simp only [deleteProfile, List.mem_map, List.mem_filter] at hm
    obtain ⟨m0, ⟨-, hkeep⟩, hmap⟩ := hm
    simp only [Bool.and_eq_true, bne_iff_ne, ne_eq] at hkeep
    have hs : m.sender_id = m0.sender_id ∧ m.recipient_id = m0.recipient_id := by
      subst hmap
      refine ⟨?_, ?_⟩ <;>
        (cases hr : m0.reply_to_id <;> simp [clearDanglingReply, hr]) <;>
        (split <;> rfl)
    exact ⟨hs.1 ▸ hkeep.1, hs.2 ▸ hkeep.2⟩
  · simp only [deleteProfile, List.mem_map]
    refine ⟨dm, ?_, rfl⟩
    simp only [List.mem_filter, Bool.and_eq_true, bne_iff_ne, ne_eq]
    exact ⟨hdm, hdms, hdmr⟩
  · simp only [deleteProfile, List.mem_map]
    refine ⟨g, hg, ?_⟩
    simp [nullifyCreator, hgc]
  · simp [deleteProfile]

/-- Witness for C7 at a concrete database: profile u1 has a post, a
follow edge, a membership, a sent message and a created group; profile u2
keeps an unrelated message. -/
theorem delete_profile_cascades_witness :
    ((⟨"p1", "u1", "post", "", "image", 0⟩ : Post) ∈
        (deleteProfile
          { profiles := [⟨"u1", "alice", "Alice", "", "", "", false, 0, "lt-classic", "", none⟩],
            posts := [⟨"p1", "u1", "post", "", "image", 0⟩],
            follows := [⟨"u1", "u2", 0⟩],
            messages := [⟨"m1", "u1", "u2", "hi", "", "image", false, 0, none, none⟩,
              ⟨"m2", "u2", "u3", "yo", "", "image", false, 0, none, none⟩],
            groups := [⟨"g1", "grp", some "u1", 0, "", ""⟩],
            group_members := [⟨"g1", "u1", 0, true⟩] } "u1").posts ↔
      (⟨"p1", "u1", "post", "", "image", 0⟩ : Post) ∈
          [(⟨"p1", "u1", "post", "", "image", 0⟩ : Post)] ∧ "u1" ≠ "u1") ∧
    ((⟨"u1", "u2", 0⟩ : Follow) ∈
        (deleteProfile
          { profiles := [⟨"u1", "alice", "Alice", "", "", "", false, 0, "lt-classic", "", none⟩],
            posts := [⟨"p1", "u1", "post", "", "image", 0⟩],
            follows := [⟨"u1", "u2", 0⟩],
            messages := [⟨"m1", "u1", "u2", "hi", "", "image", false, 0, none, none⟩,
              ⟨"m2", "u2", "u3", "yo", "", "image", false, 0, none, none⟩],
            groups := [⟨"g1", "grp", some "u1", 0, "", ""⟩],
            group_members := [⟨"g1", "u1", 0, true⟩] } "u1").follows ↔
      (⟨"u1", "u2", 0⟩ : Follow) ∈ [(⟨"u1", "u2", 0⟩ : Follow)] ∧
        "u1" ≠ "u1" ∧ "u2" ≠ "u1") ∧
    ((⟨"g1", "u1", 0, true⟩ : GroupMember) ∈
        (deleteProfile
          { profiles := [⟨"u1", "alice", "Alice", "", "", "", false, 0, "lt-classic", "", none⟩],
            posts := [⟨"p1", "u1", "post", "", "image", 0⟩],
            follows := [⟨"u1", "u2", 0⟩],
            messages := [⟨"m1", "u1", "u2", "hi", "", "image", false, 0, none, none⟩,
              ⟨"m2", "u2", "u3", "yo", "", "image", false, 0, none, none⟩],
            groups := [⟨"g1", "grp", some "u1", 0, "", ""⟩],
            group_members := [⟨"g1", "u1", 0, true⟩] } "u1").group_members ↔
      (⟨"g1", "u1", 0, true⟩ : GroupMember) ∈ [(⟨"g1", "u1", 0, true⟩ : GroupMember)] ∧
        "u1" ≠ "u1") ∧
    ((⟨"m2", "u2", "u3", "yo", "", "image", false, 0, none, none⟩ : Message).sender_id ≠ "u1" ∧
      (⟨"m2", "u2", "u3", "yo", "", "image", false, 0, none, none⟩ : Message).recipient_id ≠ "u1") ∧
    clearDanglingReply
        (deletedMessageIds
          { profiles := [⟨"u1", "alice", "Alice", "", "", "", false, 0, "lt-classic", "", none⟩],
            posts := [⟨"p1", "u1", "post", "", "image", 0⟩],
            follows := [⟨"u1", "u2", 0⟩],
            messages := [⟨"m1", "u1", "u2", "hi", "", "image", false, 0, none, none⟩,
              ⟨"m2", "u2", "u3", "yo", "", "image", false, 0, none, none⟩],
            groups := [⟨"g1", "grp", some "u1", 0, "", ""⟩],
            group_members := [⟨"g1", "u1", 0, true⟩] } "u1")
        ⟨"m2", "u2", "u3", "yo", "", "image", false, 0, none, none⟩ ∈
      (deleteProfile
        { profiles := [⟨"u1", "alice", "Alice", "", "", "", false, 0, "lt-classic", "", none⟩],
          posts := [⟨"p1", "u1", "post", "", "image", 0⟩],
          follows := [⟨"u1", "u2", 0⟩],
          messages := [⟨"m1", "u1", "u2", "hi", "", "image", false, 0, none, none⟩,
            ⟨"m2", "u2", "u3", "yo", "", "image", false, 0, none, none⟩],
          groups := [⟨"g1", "grp", some "u1", 0, "", ""⟩],
          group_members := [⟨"g1", "u1", 0, true⟩] } "u1").messages ∧
    ({ (⟨"g1", "grp", some "u1", 0, "", ""⟩ : Group) with creator_id := none } ∈
      (deleteProfile
        { profiles := [⟨"u1", "alice", "Alice", "", "", "", false, 0, "lt-classic", "", none⟩],
          posts := [⟨"p1", "u1", "post", "", "image", 0⟩],
          follows := [⟨"u1", "u2", 0⟩],
          messages := [⟨"m1", "u1", "u2", "hi", "", "image", false, 0, none, none⟩,
            ⟨"m2", "u2", "u3", "yo", "", "image", false, 0, none, none⟩],
          groups := [⟨"g1", "grp", some "u1", 0, "", ""⟩],
          group_members := [⟨"g1", "u1", 0, true⟩] } "u1").groups) ∧
    (deleteProfile
      { profiles := [⟨"u1", "alice", "Alice", "", "", "", false, 0, "lt-classic", "", none⟩],
        posts := [⟨"p1", "u1", "post", "", "image", 0⟩],
        follows := [⟨"u1", "u2", 0⟩],
        messages := [⟨"m1", "u1", "u2", "hi", "", "image", false, 0, none, none⟩,
          ⟨"m2", "u2", "u3", "yo", "", "image", false, 0, none, none⟩],
        groups := [⟨"g1", "grp", some "u1", 0, "", ""⟩],
        group_members := [⟨"g1", "u1", 0, true⟩] } "u1").groups.length =
      [(⟨"g1", "grp", some "u1", 0, "", ""⟩ : Group)].length :=
  delete_profile_cascades _ "u1" _ _ _ _ _ _ (by decide) (by decide)
    (by decide) (by decide) (by decide) rfl

/-- A row of storage.objects: the bucket it belongs to and its key. -/
structure StorageObject where
  bucket_id : String
  name : String
deriving DecidableEq

/-- Splitting a character list at every occurrence of `sep`
(PostgreSQL string_to_array semantics: empty segments are kept). -/
def splitChar (sep : Char) : List Char → List (List Char)
  | [] => [[]]
  | c :: cs =>
    if c = sep then [] :: splitChar sep cs
    else
      match splitChar sep cs with
      | [] => [[c]]
      | seg :: segs => (c :: seg) :: segs

/-- The '/' separated segments of an object key. -/
def pathSegments (name : String) : List String :=
  (splitChar '/' name.data).map (fun cs => String.mk cs)

/-- Modelled from the spec: storage.foldername is the hosted storage
platform's SQL helper (defined outside this repository) that the delete
policy calls; it splits the key on '/' and returns all segments except
the last (the file name), so a key without '/' yields the empty array. -/
def foldername (name : String) : List String :=
  (pathSegments name).dropLast

/-- USING of storage policy "Users can delete own":
`bucket_id = 'media' AND (storage.foldername(name))[1] = (SELECT id::text
FROM auth.users WHERE id = auth.uid())`.  Indexing [1] an empty array is
NULL in SQL and the comparison then fails, which `Option.head?` mirrors. -/
def storageDeleteUsing (caller : Uid) (o : StorageObject) : Bool :=
  o.bucket_id == "media" && (foldername o.name).head? == some caller

/-- USING of storage policy "Anyone can view media": `bucket_id = 'media'`. -/
def storageSelectUsing (o : StorageObject) : Bool :=
  o.bucket_id == "media"

/-- WITH CHECK of storage policy "Users can upload": `bucket_id = 'media'`. -/
def storageInsertCheck (o : StorageObject) : Bool :=
  o.bucket_id == "media"

/-- The first path segment of an object key, following the words of the
spec sentence for claim C8 ("the first path segment of the object's
key"), to be compared with the policy's foldername-based check. -/
def firstPathSegment (name : String) : Option String :=
  (pathSegments name).head?

/-- The head of a list with the last element dropped is its head, and it
exists exactly when the list has at least two elements. -/
theorem head_dropLast_iff {α : Type} (l : List α) (a : α) :
    l.dropLast.head? = some a ↔ 2 ≤ l.length ∧ l.head? = some a := by
  match l with
  | [] => simp
  | [x] => simp
  | x :: y :: t => simp [List.dropLast]

/-- Counterexample to claim C8 as stated: for the object keyed "u1" (no
folder prefix) in the media bucket, the first path segment of the key
equals the caller's identity "u1", yet the delete policy denies, because
foldername drops the final segment and leaves nothing to compare. -/
theorem storage_delete_claim_counterexample :
    ¬(storageDeleteUsing "u1" { bucket_id := "media", name := "u1" } = true ↔
        firstPathSegment "u1" = some "u1") := by
  decide

/-- Claim C8 amended: a delete on a storage object is permitted iff the
object is in the media bucket, its key has at least two '/'-separated
segments, and the first segment equals the caller's identity; keys
without a folder prefix are never deletable. -/
theorem storage_delete_owner_folder (caller : Uid) (o : StorageObject) :
    storageDeleteUsing caller o = true ↔
      o.bucket_id = "media" ∧ 2 ≤ (pathSegments o.name).length ∧
        (pathSegments o.name).head? = some caller := by
  simp [storageDeleteUsing, foldername, head_dropLast_iff, and_assoc]

/-- JS String.prototype.toLowerCase, as used on the submitted username:
each character lowercased. -/
def toLowerCase (s : String) : String :=
  ⟨s.data.map Char.toLower⟩

/-- JS String.prototype.trim: leading and trailing whitespace removed
(the component only tests the result for emptiness). -/
def trim (s : String) : String :=
  ⟨((s.data.dropWhile Char.isWhitespace).reverse.dropWhile Char.isWhitespace).reverse⟩

/-- The status message state of the Settings component:
`{ type: 'success' | 'error', text }`. -/
inductive MsgType where
  | success
  | error
deriving DecidableEq

/-- A value of the component's `message` state. -/
structure StatusMessage where
  type : MsgType
  text : String
deriving DecidableEq

/-- The state handleUsernameChange reads and writes: the backend profiles
table, the cached profile held by the auth context (`profile`, null until
loaded), and the transient status message. -/
structure SettingsState where
  profiles : List Profile
  cache : Option Profile
  message : Option StatusMessage
deriving DecidableEq

/-- Query `supabase.from('profiles').select('id').eq('username', u).maybeSingle()`:
the profiles SELECT policy is USING (true), so the query sees every row;
maybeSingle yields a row matching the username, if any. -/
def maybeSingleByUsername (profiles : List Profile) (uname : String) : Option Profile :=
  (profiles.filter (fun p => p.username == uname)).head?

/-- Mutation `supabase.from('profiles').update({ username: u }).eq('id', uid)`:
the rows whose id is uid get their username column replaced. -/
def updateUsernameRow (profiles : List Profile) (uid : Uid) (uname : String) : List Profile :=
  profiles.map (fun p => if p.id == uid then { p with username := uname } else p)

/-- handleUsernameChange of src/src/components/Settings.tsx: guard clause
(user present, profile loaded, name differs exactly from the current
username, name not blank), then the collision pre-check on the lowercased
name, then the UPDATE and the optimistic cache patch.  `updateOk` is
whether the backend UPDATE returns without error. -/
def handleUsernameChange (user_id : Option Uid) (newUsername : String)
    (updateOk : Bool) (st : SettingsState) : SettingsState :=
  match user_id, st.cache with
  | some uid, some profile =>
    if newUsername == profile.username || trim newUsername == "" then st
    else
      match maybeSingleByUsername st.profiles (toLowerCase newUsername) with
      | some _ => { st with message := some { type := .error, text := "Username already taken." } }
      | none =>
        if updateOk then
          { profiles := updateUsernameRow st.profiles uid (toLowerCase newUsername)
            cache := some { profile with username := toLowerCase newUsername }
            message := some { type := .success, text := "Username updated!" } }
        else
          { st with message := some { type := .error, text := "Failed to update username." } }
  | _, _ => st

/-- When the pre-check finds a row holding the lowercased submitted name,
handleUsernameChange sets the taken message and leaves table and cache
untouched. -/
theorem handleUsernameChange_taken (uid : Uid) (st : SettingsState)
    (profile q : Profile) (newUsername : String) (updateOk : Bool)
    (hcache : st.cache = some profile)
    (hq : q ∈ st.profiles) (hqname : q.username = toLowerCase newUsername)
    (hne : newUsername ≠ profile.username)
    (hnb : trim newUsername ≠ "") :
    (handleUsernameChange (some uid) newUsername updateOk st).message =
        some { type := .error, text := "Username already taken." } ∧
    (handleUsernameChange (some uid) newUsername updateOk st).profiles = st.profiles ∧
    (handleUsernameChange (some uid) newUsername updateOk st).cache = st.cache := by
  have hmem : q ∈ st.profiles.filter (fun p => p.username == toLowerCase newUsername) :=
    List.mem_filter.mpr ⟨hq, by simp [hqname]⟩
  have hguard : (newUsername == profile.username || trim newUsername == "") = false := by
    simp [hne, hnb]
  cases hfind : maybeSingleByUsername st.profiles (toLowerCase newUsername) with
  | none =>
    exfalso
    have : st.profiles.filter (fun p => p.username == toLowerCase newUsername) = [] := by
      simpa [maybeSingleByUsername] using hfind
    rw [this] at hmem
    exact List.not_mem_nil q hmem
  | some r =>
    simp [handleUsernameChange, hcache, hguard, hfind]

/-- Claim C5: when another profile already holds the lowercase form of
the submitted name, the username change is rejected with the taken
message and neither the profiles table nor the cached profile changes. -/
theorem username_change_taken_no_write (uid : Uid) (st : SettingsState)
    (profile q : Profile) (newUsername : String) (updateOk : Bool)
    (hcache : st.cache = some profile)
    (hq : q ∈ st.profiles) (hqname : q.username = toLowerCase newUsername)
    (hne : newUsername ≠ profile.username)
    (hnb : trim newUsername ≠ "") :
    (handleUsernameChange (some uid) newUsername updateOk st).message =
        some { type := .error, text := "Username already taken." } ∧
    (handleUsernameChange (some uid) newUsername updateOk st).profiles = st.profiles ∧
    (handleUsernameChange (some uid) newUsername updateOk st).cache = st.cache :=
  handleUsernameChange_taken uid st profile q newUsername updateOk
    hcache hq hqname hne hnb

/-- Claim C10: submitting one's own username in different letter case
passes the exact-equality guard, the pre-check then matches the caller's
own row (it does not exclude the caller's id), and the rename is rejected
with the taken message and no write. -/
theorem username_case_change_rejected (uid : Uid) (st : SettingsState)
    (profile : Profile) (newUsername : String) (updateOk : Bool)
    (hcache : st.cache = some profile)
    (hself : profile ∈ st.profiles)
    (hlower : toLowerCase newUsername = profile.username)
    (hne : newUsername ≠ profile.username)
    (hnb : trim newUsername ≠ "") :
    (handleUsernameChange (some uid) newUsername updateOk st).message =
        some { type := .error, text := "Username already taken." } ∧
    (handleUsernameChange (some uid) newUsername updateOk st).profiles = st.profiles ∧
    (handleUsernameChange (some uid) newUsername updateOk st).cache = st.cache :=
  handleUsernameChange_taken uid st profile profile newUsername updateOk
    hcache hself hlower.symm hne hnb

/-- Claim C6: when no profile holds the lowercase form and the backend
UPDATE succeeds, the row written for the caller carries exactly the
lowercased submitted name, and the cache becomes the old cached profile
with only its username replaced — no re-read from the backend. -/
theorem username_change_success (uid : Uid) (st : SettingsState)
    (profile : Profile) (newUsername : String)
    (hcache : st.cache = some profile)
    (hfree : ∀ p ∈ st.profiles, p.username ≠ toLowerCase newUsername)
    (hne : newUsername ≠ profile.username)
    (hnb : trim newUsername ≠ "") :
    (handleUsernameChange (some uid) newUsername true st).profiles =
        st.profiles.map (fun p =>
          if p.id = uid then { p with username := toLowerCase newUsername } else p) ∧
    (handleUsernameChange (some uid) newUsername true st).cache =
        some { profile with username := toLowerCase newUsername } ∧
    (handleUsernameChange (some uid) newUsername true st).message =
        some { type := .success, text := "Username updated!" } := by
  have hguard : (newUsername == profile.username || trim newUsername == "") = false := by
    simp [hne, hnb]
  have hfind : maybeSingleByUsername st.profiles (toLowerCase newUsername) = none := by
    have : st.profiles.filter (fun p => p.username == toLowerCase newUsername) = [] := by
      rw [List.filter_eq_nil_iff]
      intro p hp
      simp [hfree p hp]
    simp [maybeSingleByUsername, this]
  refine ⟨?_, ?_, ?_⟩ <;>
    simp [handleUsernameChange, hcache, hguard, hfind, updateUsernameRow]

/-- Witness for C5: profile u2 already holds username "alice", so caller
u1 renaming to "Alice" is rejected with no write. -/
theorem username_change_taken_no_write_witness :
    (handleUsernameChange (some "u1") "Alice" true
        { profiles := [⟨"u1", "carol", "Carol", "", "", "", false, 0, "lt-classic", "", none⟩,
            ⟨"u2", "alice", "Alice B", "", "", "", false, 0, "lt-classic", "", none⟩],
          cache := some ⟨"u1", "carol", "Carol", "", "", "", false, 0, "lt-classic", "", none⟩,
          message := none }).message =
        some { type := .error, text := "Username already taken." } ∧
    (handleUsernameChange (some "u1") "Alice" true
        { profiles := [⟨"u1", "carol", "Carol", "", "", "", false, 0, "lt-classic", "", none⟩,
            ⟨"u2", "alice", "Alice B", "", "", "", false, 0, "lt-classic", "", none⟩],
          cache := some ⟨"u1", "carol", "Carol", "", "", "", false, 0, "lt-classic", "", none⟩,
          message := none }).profiles =
      [⟨"u1", "carol", "Carol", "", "", "", false, 0, "lt-classic", "", none⟩,
        ⟨"u2", "alice", "Alice B", "", "", "", false, 0, "lt-classic", "", none⟩] ∧
    (handleUsernameChange (some "u1") "Alice" true
        { profiles := [⟨"u1", "carol", "Carol", "", "", "", false, 0, "lt-classic", "", none⟩,
            ⟨"u2", "alice", "Alice B", "", "", "", false, 0, "lt-classic", "", none⟩],
          cache := some ⟨"u1", "carol", "Carol", "", "", "", false, 0, "lt-classic", "", none⟩,
          message := none }).cache =
      some ⟨"u1", "carol", "Carol", "", "", "", false, 0, "lt-classic", "", none⟩ :=
  username_change_taken_no_write "u1" _
    ⟨"u1", "carol", "Carol", "", "", "", false, 0, "lt-classic", "", none⟩
    ⟨"u2", "alice", "Alice B", "", "", "", false, 0, "lt-classic", "", none⟩
    "Alice" true rfl (by decide) (by decide) (by decide) (by decide)

/-- Witness for C10: caller u1 holds username "alice" and submits
"Alice"; the pre-check matches their own row and the rename is rejected. -/
theorem username_case_change_rejected_witness :
    (handleUsernameChange (some "u1") "Alice" true
        { profiles := [⟨"u1", "alice", "Alice A", "", "", "", false, 0, "lt-classic", "", none⟩],
          cache := some ⟨"u1", "alice", "Alice A", "", "", "", false, 0, "lt-classic", "", none⟩,
          message := none }).message =
        some { type := .error, text := "Username already taken." } ∧
    (handleUsernameChange (some "u1") "Alice" true
        { profiles := [⟨"u1", "alice", "Alice A", "", "", "", false, 0, "lt-classic", "", none⟩],
          cache := some ⟨"u1", "alice", "Alice A", "", "", "", false, 0, "lt-classic", "", none⟩,
          message := none }).profiles =
      [⟨"u1", "alice", "Alice A", "", "", "", false, 0, "lt-classic", "", none⟩] ∧
    (handleUsernameChange (some "u1") "Alice" true
        { profiles := [⟨"u1", "alice", "Alice A", "", "", "", false, 0, "lt-classic", "", none⟩],
          cache := some ⟨"u1", "alice", "Alice A", "", "", "", false, 0, "lt-classic", "", none⟩,
          message := none }).cache =
      some ⟨"u1", "alice", "Alice A", "", "", "", false, 0, "lt-classic", "", none⟩ :=
  username_case_change_rejected "u1" _
    ⟨"u1", "alice", "Alice A", "", "", "", false, 0, "lt-classic", "", none⟩
    "Alice" true rfl (by decide) (by decide) (by decide) (by decide)

/-- Witness for C6: no profile holds "bob", so caller u1 renaming from
"alice" to "Bob" writes "bob" and patches the cache in place. -/
theorem username_change_success_witness :
    (handleUsernameChange (some "u1") "Bob" true
        { profiles := [⟨"u1", "alice", "Alice A", "", "", "", false, 0, "lt-classic", "", none⟩],
          cache := some ⟨"u1", "alice", "Alice A", "", "", "", false, 0, "lt-classic", "", none⟩,
          message := none }).profiles =
      [(⟨"u1", "alice", "Alice A", "", "", "", false, 0, "lt-classic", "", none⟩ : Profile)].map
        (fun p => if p.id = "u1" then { p with username := toLowerCase "Bob" } else p) ∧
    (handleUsernameChange (some "u1") "Bob" true
        { profiles := [⟨"u1", "alice", "Alice A", "", "", "", false, 0, "lt-classic", "", none⟩],
          cache := some ⟨"u1", "alice", "Alice A", "", "", "", false, 0, "lt-classic", "", none⟩,
          message := none }).cache =
      some { (⟨"u1", "alice", "Alice A", "", "", "", false, 0, "lt-classic", "", none⟩ : Profile)
              with username := toLowerCase "Bob" } ∧
    (handleUsernameChange (some "u1") "Bob" true
        { profiles := [⟨"u1", "alice", "Alice A", "", "", "", false, 0, "lt-classic", "", none⟩],
          cache := some ⟨"u1", "alice", "Alice A", "", "", "", false, 0, "lt-classic", "", none⟩,
          message := none }).message =
        some { type := .success, text := "Username updated!" } :=
  username_change_success "u1" _
    ⟨"u1", "alice", "Alice A", "", "", "", false, 0, "lt-classic", "", none⟩
    "Bob" rfl (by decide) (by decide) (by decide)

end Liaotian
